import Mathlib

/-!
Verification of the loomaa semantic-model compiler and its surrounding CLI
and viewer code.  The data model and the compiler pipeline (`loomaa/model.py`
and `loomaa/compiler.py` are not shipped under src/) are modelled from the
specification; the CLI `compile` command and the viewer's `load_models`
function are embedded from `src/loomaa/cli.py` and `src/loomaa/viewer.py`.
-/

namespace Loomaa

/-- The single-quote character, used by the name sanitizer as its quoting
delimiter. -/
def sq : Char := Char.ofNat 39

/-- Modelled from the spec: name sanitization escaping (loomaa/compiler.py is
missing from src/).  Every quote character inside a quoted name is doubled. -/
def escapeChars : List Char → List Char
  | [] => []
  | c :: rest => if c = sq then sq :: sq :: escapeChars rest else c :: escapeChars rest

/-- Inverse of `escapeChars`: a doubled quote collapses back to one quote. -/
def unescapeChars : List Char → List Char
  | [] => []
  | [c] => [c]
  | c :: d :: rest =>
      if c = sq ∧ d = sq then sq :: unescapeChars rest
      else c :: unescapeChars (d :: rest)

/-- Modelled from the spec: a character legal in an unquoted token of the
downstream text format (letters, digits, underscore). -/
def isLegalTokenChar (c : Char) : Bool := c.isAlphanum || c = '_'

/-- A whole name is a legal unquoted token when all of its characters are. -/
def isLegalToken (s : String) : Bool := s.data.all isLegalTokenChar

/-- Modelled from the spec: the compiler wraps any name containing characters
illegal in an unquoted token in escaped quoting. -/
def sanitizeName (s : String) : String :=
  if isLegalToken s then s else String.mk (sq :: (escapeChars s.data ++ [sq]))

/-- The inverse parse of the sanitization rule, on character lists. -/
def parseNameChars (l : List Char) : List Char :=
  if l.head? = some sq ∧ 2 ≤ l.length ∧ l.getLast? = some sq then
    unescapeChars l.dropLast.tail
  else l

/-- The inverse parse of the sanitization rule: a quoted token is stripped of
its delimiters and unescaped, any other token stands for itself. -/
def parseName (s : String) : String := String.mk (parseNameChars s.data)

/-- Modelled from the spec: table mode enumeration (loomaa/model.py is missing
from src/): DirectConnection (live) or Cached (materialized). -/
inductive TableMode where
  | directConnection
  | cached
deriving DecidableEq, Repr

/-- Modelled from the spec: column data type enumeration. -/
inductive DataType where
  | integer
  | text
  | dateTime
  | currency
  | boolean
  | decimal
deriving DecidableEq, Repr

/-- Modelled from the spec: relationship cardinality enumeration. -/
inductive Cardinality where
  | oneToMany
  | manyToOne
  | oneToOne
  | manyToMany
deriving DecidableEq, Repr

/-- Modelled from the spec: cross-filter direction enumeration. -/
inductive CrossFilter where
  | single
  | both
  | none
deriving DecidableEq, Repr

/-- Modelled from the spec: a Column record of loomaa/model.py (missing from
src/): name, data type, description, optional display format string. -/
structure Column where
  name : String
  dtype : DataType
  description : String := ""
  format_string : Option String := Option.none
deriving DecidableEq, Repr

/-- Modelled from the spec: a CalculatedColumn record: name, expression in the
target formula language, description. -/
structure CalculatedColumn where
  name : String
  expression : String
  description : String := ""
deriving DecidableEq, Repr

/-- Modelled from the spec: a Measure record: name, expression, description,
optional format string, optional display folder, optional hidden flag. -/
structure Measure where
  name : String
  expression : String
  description : String := ""
  format_string : Option String := Option.none
  folder : Option String := Option.none
  is_hidden : Bool := false
deriving DecidableEq, Repr

/-- Modelled from the spec: a Relationship record with endpoints resolved by
name, cardinality, cross-filter direction and active flag. -/
structure Relationship where
  from_table : String
  from_column : String
  to_table : String
  to_column : String
  cardinality : Cardinality
  cross_filter_direction : CrossFilter
  description : String := ""
  is_active : Bool := true
deriving DecidableEq, Repr

/-- Modelled from the spec: a Hierarchy record: name, ordered level names,
description. -/
structure Hierarchy where
  name : String
  levels : List String
  description : String := ""
deriving DecidableEq, Repr

/-- Modelled from the spec: a Role record: name, description, ordered
(table-name, filter-expression) permissions and member identifiers. -/
structure Role where
  name : String
  description : String := ""
  table_permissions : List (String × String) := []
  members : List String := []
deriving DecidableEq, Repr

/-- Modelled from the spec: a Table record of loomaa/model.py: name, optional
schema, mode, description, source reference, connection detail, and its owned
ordered columns, calculated columns and table-scoped measures. -/
structure Table where
  name : String
  schema : Option String := Option.none
  mode : TableMode
  description : String := ""
  source_query : Option String := Option.none
  connection : Option String := Option.none
  columns : List Column := []
  calculated_columns : List CalculatedColumn := []
  measures : List Measure := []
deriving DecidableEq, Repr

/-- Modelled from the spec: the SemanticModel record: name, description, and
its ordered collections of tables, model-level measures, relationships,
hierarchies and roles. -/
structure SemanticModel where
  name : String
  description : String := ""
  tables : List Table := []
  measures : List Measure := []
  relationships : List Relationship := []
  hierarchies : List Hierarchy := []
  roles : List Role := []
deriving DecidableEq, Repr

/-- Modelled from the spec: the compiler's structured error kinds, all fatal
to the whole compile call. -/
inductive CompileError where
  | duplicateNameError (name : String)
  | referenceError (name : String)
  | incompatibleModeError (tableName : String)
  | enumerationMappingError (detail : String)
deriving DecidableEq, Repr

/-- Modelled from the spec: the canonical output token for each cardinality
value; the mapping is total by construction. -/
def cardinalityToken : Cardinality → String
  | .oneToMany => "oneToMany"
  | .manyToOne => "manyToOne"
  | .oneToOne => "oneToOne"
  | .manyToMany => "manyToMany"

/-- Modelled from the spec: the canonical output token for each cross-filter
direction value. -/
def crossFilterToken : CrossFilter → String
  | .single => "single"
  | .both => "both"
  | .none => "noFilter"

/-- Modelled from the spec: the canonical output keyword for each data type. -/
def dataTypeToken : DataType → String
  | .integer => "int64"
  | .text => "string"
  | .dateTime => "dateTime"
  | .currency => "currency"
  | .boolean => "boolean"
  | .decimal => "decimal"

/-- Modelled from the spec: the canonical output token for each table mode. -/
def modeToken : TableMode → String
  | .directConnection => "directConnection"
  | .cached => "cached"

/-- All column names a relationship endpoint can resolve to inside a table:
its physical columns and its calculated columns. -/
def colNames (t : Table) : List String :=
  t.columns.map Column.name ++ t.calculated_columns.map CalculatedColumn.name

/-- Modelled from the spec: a table violates the mode constraint when it is in
DirectConnection mode and declares at least one CalculatedColumn. -/
def modeViolation (t : Table) : Bool :=
  match t.mode with
  | .directConnection => !t.calculated_columns.isEmpty
  | .cached => false

/-- Modelled from the spec: the first table violating the mode constraint, as
an IncompatibleModeError. -/
def firstModeError (m : SemanticModel) : Option CompileError :=
  (m.tables.find? modeViolation).map fun t => CompileError.incompatibleModeError t.name

/-- Modelled from the spec: resolve one relationship against the model by name
lookup; returns the name of the first missing entity, if any. -/
def relMissing (m : SemanticModel) (r : Relationship) : Option String :=
  match m.tables.find? fun t => t.name == r.from_table with
  | Option.none => some r.from_table
  | some t =>
      if (colNames t).contains r.from_column then
        match m.tables.find? fun t2 => t2.name == r.to_table with
        | Option.none => some r.to_table
        | some t2 =>
            if (colNames t2).contains r.to_column then Option.none
            else some (r.to_table ++ "[" ++ r.to_column ++ "]")
      else some (r.from_table ++ "[" ++ r.from_column ++ "]")

/-- Modelled from the spec: the first dangling relationship reference, as a
ReferenceError naming the missing entity. -/
def firstRefError (m : SemanticModel) : Option CompileError :=
  (m.relationships.findSome? (relMissing m)).map CompileError.referenceError

/-- First name occurring twice in a list, scanning left to right. -/
def firstDup : List String → Option String
  | [] => Option.none
  | x :: xs => if xs.contains x then some x else firstDup xs

/-- The combined flat measure namespace: table-scoped measures of every table
followed by the model-scoped measures. -/
def allMeasureNames (m : SemanticModel) : List String :=
  (m.tables.map fun t => t.measures.map Measure.name).flatten ++ m.measures.map Measure.name

/-- Modelled from the spec: DuplicateNameError when two tables share a name or
two measures in the combined namespace share a name. -/
def dupError (m : SemanticModel) : Option CompileError :=
  match firstDup (m.tables.map Table.name) with
  | some n => some (CompileError.duplicateNameError n)
  | Option.none =>
      match firstDup (allMeasureNames m) with
      | some n => some (CompileError.duplicateNameError n)
      | Option.none => Option.none

/-- Modelled from the spec: structural validation, in the spec's order — the
mode constraint per table, then relationship referential integrity, then
duplicate-name detection for the whole model. -/
def validate (m : SemanticModel) : Option CompileError :=
  match firstModeError m with
  | some e => some e
  | Option.none =>
      match firstRefError m with
      | some e => some e
      | Option.none => dupError m

/-- Modelled from the spec: one line-record per Column in a table block of the
text artifact; the name is emitted as a sanitized token. -/
structure ColumnLine where
  nameTok : String
  dtypeTok : String
  formatStr : Option String
  descr : String
deriving DecidableEq, Repr

/-- Modelled from the spec: one measure block of the text artifact. -/
structure MeasureBlock where
  nameTok : String
  expression : String
  formatStr : Option String
  folder : Option String
deriving DecidableEq, Repr

/-- Modelled from the spec: one calculatedColumn block of the text artifact. -/
structure CalcColumnBlock where
  nameTok : String
  expression : String
  descr : String
deriving DecidableEq, Repr

/-- Modelled from the spec: one named table block of the text artifact, with
its mode-specific header clause. -/
structure TableBlock where
  nameTok : String
  modeHeader : String
  columns : List ColumnLine
  measures : List MeasureBlock
  calcColumns : List CalcColumnBlock
deriving DecidableEq, Repr

/-- Modelled from the spec: one relationship block of the text artifact; the
endpoints are sanitized tokens and the enumerations their canonical tokens. -/
structure RelationshipBlock where
  fromTableTok : String
  fromColumnTok : String
  toTableTok : String
  toColumnTok : String
  cardTok : String
  xfilterTok : String
deriving DecidableEq, Repr

/-- Modelled from the spec: one hierarchy block of the text artifact. -/
structure HierarchyBlock where
  nameTok : String
  levels : List String
deriving DecidableEq, Repr

/-- Modelled from the spec: one role block of the text artifact. -/
structure RoleBlock where
  nameTok : String
  permissions : List (String × String)
  members : List String
deriving DecidableEq, Repr

/-- Modelled from the spec: the text artifact as a deterministic tree of
blocks — table blocks, then relationship blocks, then the model-scoped
measure section, hierarchies and roles. -/
structure TextArtifact where
  modelNameTok : String
  tables : List TableBlock
  relationships : List RelationshipBlock
  modelMeasures : List MeasureBlock
  hierarchies : List HierarchyBlock
  roles : List RoleBlock
deriving DecidableEq, Repr

/-- Modelled from the spec: a column object of the JSON artifact. -/
structure JColumn where
  name : String
  dtype : String
  format_string : Option String
  description : String
deriving DecidableEq, Repr

/-- Modelled from the spec: a measure object of the JSON artifact. -/
structure JMeasure where
  name : String
  expression : String
  format_string : Option String
  folder : Option String
deriving DecidableEq, Repr

/-- Modelled from the spec: a table object of the JSON artifact, carrying
name, mode, columns and measures. -/
structure JTable where
  name : String
  mode : String
  columns : List JColumn
  measures : List JMeasure
deriving DecidableEq, Repr

/-- Modelled from the spec: a relationship object of the JSON artifact. -/
structure JRelationship where
  from_table : String
  from_column : String
  to_table : String
  to_column : String
  cardinality : String
  cross_filter_direction : String
deriving DecidableEq, Repr

/-- Modelled from the spec: the JSON artifact document with top-level name,
tables, relationships and model-level measures. -/
structure JsonDoc where
  name : String
  tables : List JTable
  relationships : List JRelationship
  measures : List JMeasure
deriving DecidableEq, Repr

/-- Modelled from the spec: the mode-specific header of a table block — the
partition/source clause differs between DirectConnection and Cached modes. -/
def tableHeader (t : Table) : String :=
  match t.mode with
  | .directConnection =>
      "partition directConnection source " ++ (t.source_query.getD t.name)
        ++ " resource " ++ (t.connection.getD "")
  | .cached =>
      "partition cached source " ++ (t.source_query.getD t.name)
        ++ " server " ++ (t.connection.getD "")

/-- Modelled from the spec: emit one measure block with a sanitized name. -/
def emitMeasureBlock (msr : Measure) : MeasureBlock :=
  { nameTok := sanitizeName msr.name
    expression := msr.expression
    formatStr := msr.format_string
    folder := msr.folder }

/-- Modelled from the spec: emit one table block — header, one line per
column, one block per measure, and (Cached mode only) the calculated-column
blocks. -/
def emitTable (t : Table) : TableBlock :=
  { nameTok := sanitizeName t.name
    modeHeader := tableHeader t
    columns := t.columns.map fun c =>
      { nameTok := sanitizeName c.name
        dtypeTok := dataTypeToken c.dtype
        formatStr := c.format_string
        descr := c.description }
    measures := t.measures.map emitMeasureBlock
    calcColumns :=
      match t.mode with
      | .cached => t.calculated_columns.map fun c =>
          { nameTok := sanitizeName c.name
            expression := c.expression
            descr := c.description }
      | .directConnection => [] }

/-- Modelled from the spec: text emission — table blocks in model order, then
one relationship block per relationship, then hierarchies and roles. -/
def emitText (m : SemanticModel) : TextArtifact :=
  { modelNameTok := sanitizeName m.name
    tables := m.tables.map emitTable
    relationships := m.relationships.map fun r =>
      { fromTableTok := sanitizeName r.from_table
        fromColumnTok := sanitizeName r.from_column
        toTableTok := sanitizeName r.to_table
        toColumnTok := sanitizeName r.to_column
        cardTok := cardinalityToken r.cardinality
        xfilterTok := crossFilterToken r.cross_filter_direction }
    modelMeasures := m.measures.map emitMeasureBlock
    hierarchies := m.hierarchies.map fun h =>
      { nameTok := sanitizeName h.name, levels := h.levels }
    roles := m.roles.map fun r =>
      { nameTok := sanitizeName r.name
        permissions := r.table_permissions
        members := r.members } }

/-- Modelled from the spec: JSON emission — the same model graph walked into
the viewer-facing document, with raw (unsanitized) names. -/
def emitJson (m : SemanticModel) : JsonDoc :=
  { name := m.name
    tables := m.tables.map fun t =>
      { name := t.name
        mode := modeToken t.mode
        columns := t.columns.map fun c =>
          { name := c.name
            dtype := dataTypeToken c.dtype
            format_string := c.format_string
            description := c.description }
        measures := t.measures.map fun msr =>
          { name := msr.name
            expression := msr.expression
            format_string := msr.format_string
            folder := msr.folder } }
    relationships := m.relationships.map fun r =>
      { from_table := r.from_table
        from_column := r.from_column
        to_table := r.to_table
        to_column := r.to_column
        cardinality := cardinalityToken r.cardinality
        cross_filter_direction := crossFilterToken r.cross_filter_direction }
    measures := m.measures.map fun msr =>
      { name := msr.name
        expression := msr.expression
        format_string := msr.format_string
        folder := msr.folder } }

/-- Modelled from the spec: the whole compile contract — validate first, then
emit both artifacts; any validation error aborts the call. -/
def compile (m : SemanticModel) : Except CompileError (TextArtifact × JsonDoc) :=
  match validate m with
  | some e => Except.error e
  | Option.none => Except.ok (emitText m, emitJson m)

/-- Join a list of lines into one text stream. -/
def joinLines (l : List String) : String :=
  String.intercalate "\n" l

/-- Render one measure block of the text artifact. -/
def renderMeasureBlock (b : MeasureBlock) : String :=
  "  measure " ++ b.nameTok ++ " = " ++ b.expression
    ++ (match b.formatStr with
        | some f => "\n    formatString: " ++ f
        | Option.none => "")
    ++ (match b.folder with
        | some f => "\n    displayFolder: " ++ f
        | Option.none => "")

/-- Render one table block of the text artifact. -/
def renderTableBlock (b : TableBlock) : String :=
  joinLines
    (("table " ++ b.nameTok)
      :: ("  " ++ b.modeHeader)
      :: (b.columns.map fun c =>
            "  column " ++ c.nameTok ++ " : " ++ c.dtypeTok
              ++ (match c.formatStr with
                  | some f => " format " ++ f
                  | Option.none => "")
              ++ " -- " ++ c.descr)
      ++ b.measures.map renderMeasureBlock
      ++ b.calcColumns.map fun c =>
           "  calculatedColumn " ++ c.nameTok ++ " = " ++ c.expression)

/-- Render one relationship block of the text artifact. -/
def renderRelationshipBlock (b : RelationshipBlock) : String :=
  joinLines
    [ "relationship"
    , "  from: " ++ b.fromTableTok ++ "[" ++ b.fromColumnTok ++ "]"
    , "  to: " ++ b.toTableTok ++ "[" ++ b.toColumnTok ++ "]"
    , "  cardinality: " ++ b.cardTok
    , "  crossFilter: " ++ b.xfilterTok ]

/-- Modelled from the spec: render the deterministic text artifact to one
text stream. -/
def renderText (a : TextArtifact) : String :=
  joinLines
    (("model " ++ a.modelNameTok)
      :: a.tables.map renderTableBlock
      ++ a.relationships.map renderRelationshipBlock
      ++ a.modelMeasures.map renderMeasureBlock
      ++ (a.hierarchies.map fun h =>
            "hierarchy " ++ h.nameTok ++ " levels " ++ String.intercalate ", " h.levels)
      ++ a.roles.map fun r =>
           joinLines
             (("role " ++ r.nameTok)
               :: (r.permissions.map fun p => "  tablePermission " ++ p.1 ++ " = " ++ p.2)
               ++ r.members.map fun mem => "  member " ++ mem))

/-- Escape one character for a JSON string literal. -/
def jsonEscapeChar (c : Char) : String :=
  if c = '"' then "\\\""
  else if c = '\\' then "\\\\"
  else if c = '\n' then "\\n"
  else String.mk [c]

/-- Render a JSON string literal. -/
def jsonStr (s : String) : String :=
  "\"" ++ String.join (s.data.map jsonEscapeChar) ++ "\""

/-- Render an optional JSON string field value. -/
def jsonOptStr (s : Option String) : String :=
  match s with
  | some v => jsonStr v
  | Option.none => "null"

/-- Render a JSON array from rendered elements. -/
def jsonArr (elems : List String) : String :=
  "[" ++ String.intercalate "," elems ++ "]"

/-- Render a JSON object from rendered key–value pairs. -/
def jsonObj (fields : List (String × String)) : String :=
  "\x7b" ++ String.intercalate "," (fields.map fun f => jsonStr f.1 ++ ":" ++ f.2) ++ "\x7d"

/-- Modelled from the spec: render the JSON artifact document to its byte
stream. -/
def renderJson (j : JsonDoc) : String :=
  jsonObj
    [ ("name", jsonStr j.name)
    , ("tables", jsonArr (j.tables.map fun t =>
        jsonObj
          [ ("name", jsonStr t.name)
          , ("mode", jsonStr t.mode)
          , ("columns", jsonArr (t.columns.map fun c =>
              jsonObj
                [ ("name", jsonStr c.name)
                , ("dtype", jsonStr c.dtype)
                , ("format_string", jsonOptStr c.format_string)
                , ("description", jsonStr c.description) ]))
          , ("measures", jsonArr (t.measures.map fun msr =>
              jsonObj
                [ ("name", jsonStr msr.name)
                , ("expression", jsonStr msr.expression)
                , ("format_string", jsonOptStr msr.format_string)
                , ("folder", jsonOptStr msr.folder) ])) ]))
    , ("relationships", jsonArr (j.relationships.map fun r =>
        jsonObj
          [ ("from_table", jsonStr r.from_table)
          , ("from_column", jsonStr r.from_column)
          , ("to_table", jsonStr r.to_table)
          , ("to_column", jsonStr r.to_column)
          , ("cardinality", jsonStr r.cardinality)
          , ("cross_filter_direction", jsonStr r.cross_filter_direction) ]))
    , ("measures", jsonArr (j.measures.map fun msr =>
        jsonObj
          [ ("name", jsonStr msr.name)
          , ("expression", jsonStr msr.expression)
          , ("format_string", jsonOptStr msr.format_string)
          , ("folder", jsonOptStr msr.folder) ])) ]

/-- The output location, as a map from artifact path to byte content. -/
def FS : Type := String → Option String

/-- Overwrite one artifact file in full at a path. -/
def setFile (p : String) (content : String) (fs : FS) : FS :=
  fun q => if q = p then some content else fs q

/-- The fixed output path of the text artifact. -/
def textPath : String := "compiled/model.tmdl"

/-- The fixed output path of the JSON artifact. -/
def jsonPath : String := "compiled/model.json"

/-- Modelled from the spec: artifact persistence — on success both artifacts
are written in full to the fixed output location; on any compile error the
location is left untouched. -/
def compileToDir (m : SemanticModel) (fs : FS) : FS :=
  match compile m with
  | Except.error _ => fs
  | Except.ok (t, j) => setFile jsonPath (renderJson j) (setFile textPath (renderText t) fs)

/-- Structural fact: the (table, column) pairs recoverable from the text
artifact, un-escaping every emitted token with the inverse parse. -/
def textTableColumnPairs (a : TextArtifact) : List (String × String) :=
  a.tables.flatMap fun tb => tb.columns.map fun c => (parseName tb.nameTok, parseName c.nameTok)

/-- Structural fact: the (table, column) pairs recoverable from the JSON
artifact. -/
def jsonTableColumnPairs (j : JsonDoc) : List (String × String) :=
  j.tables.flatMap fun tb => tb.columns.map fun c => (tb.name, c.name)

/-- Structural fact: every measure name with its expression recoverable from
the text artifact (table sections first, then the model-scoped section). -/
def textMeasureFacts (a : TextArtifact) : List (String × String) :=
  (a.tables.flatMap fun tb => tb.measures.map fun b => (parseName b.nameTok, b.expression))
    ++ a.modelMeasures.map fun b => (parseName b.nameTok, b.expression)

/-- Structural fact: every measure name with its expression recoverable from
the JSON artifact. -/
def jsonMeasureFacts (j : JsonDoc) : List (String × String) :=
  (j.tables.flatMap fun tb => tb.measures.map fun b => (b.name, b.expression))
    ++ j.measures.map fun b => (b.name, b.expression)

/-- Structural fact: the relationship endpoints recoverable from the text
artifact. -/
def textRelEndpoints (a : TextArtifact) : List (String × String × String × String) :=
  a.relationships.map fun r =>
    (parseName r.fromTableTok, parseName r.fromColumnTok,
      parseName r.toTableTok, parseName r.toColumnTok)

/-- Structural fact: the relationship endpoints recoverable from the JSON
artifact. -/
def jsonRelEndpoints (j : JsonDoc) : List (String × String × String × String) :=
  j.relationships.map fun r => (r.from_table, r.from_column, r.to_table, r.to_column)

/-- Outcome of one run of the loomaa compile CLI command: the messages shown
to the user, the process exit status, and how many times the underlying
compile_model call was made. -/
structure CliOutcome where
  output : List String
  exitCode : Nat
  compileCalls : Nat
deriving DecidableEq, Repr

/-- The compile CLI command of src/loomaa/cli.py: checks model.py exists,
logs, invokes compile_model once, and on any exception echoes the error and
exits with status 1.  The single compile_model invocation is abstracted as
its outcome (normal return or exception message). -/
def cliCompile (modelPyExists : Bool) (compileResult : Except String Unit) : CliOutcome :=
  if !modelPyExists then
    { output := ["❌ model.py not found. Run 'loomaa init' first."]
      exitCode := 1
      compileCalls := 0 }
  else
    match compileResult with
    | Except.ok _ =>
        { output :=
            [ "Compiling semantic model..."
            , "✅ Model compiled! Check compiled/ directory."
            , "💡 Run 'loomaa view' to inspect the model in browser." ]
          exitCode := 0
          compileCalls := 1 }
    | Except.error e =>
        { output :=
            [ "Compiling semantic model..."
            , "❌ Compilation failed: " ++ e ]
          exitCode := 1
          compileCalls := 1 }

/-- A JSON value as parsed by json.load in the viewer. -/
inductive JVal where
  | str (s : String)
  | num (n : Int)
  | boolean (b : Bool)
  | null
  | arr (xs : List JVal)
  | obj (fields : List (String × JVal))

/-- Python dict assignment model_data[k] = v: update the existing key in
place, else append the new key at the end. -/
def setKey (l : List (String × JVal)) (k : String) (v : JVal) : List (String × JVal) :=
  if l.any fun p => p.1 == k then
    l.map fun p => if p.1 == k then (k, v) else p
  else l ++ [(k, v)]

/-- What reading folder/model.json yields in the viewer: the file is absent,
raises a JSONDecodeError or UnicodeDecodeError with a message, or parses to a
JSON object given by its fields. -/
inductive ReadResult where
  | absent
  | invalid (err : String)
  | parsed (fields : List (String × JVal))

/-- One entry of os.listdir("compiled"): its name, whether it is a directory,
and what reading its model.json yields. -/
structure FolderEntry where
  name : String
  isDir : Bool
  content : ReadResult

/-- The state of the compiled directory as load_models observes it: whether
the directory exists, and the listing (or the exception os.listdir raises). -/
structure CompiledDir where
  present : Bool
  listing : Except String (List FolderEntry)

/-- The value load_models produces: the model list it returns plus the
warning and error messages it surfaces through the UI. -/
structure LoadResult where
  models : List (List (String × JVal))
  warnings : List String
  errors : List String

/-- One loop step of load_models over a directory entry. -/
def loadStep (acc : LoadResult) (e : FolderEntry) : LoadResult :=
  if e.isDir then
    match e.content with
    | ReadResult.absent => acc
    | ReadResult.invalid err =>
        { acc with warnings := acc.warnings ++ ["Could not load model from " ++ e.name ++ ": " ++ err] }
    | ReadResult.parsed fields =>
        { acc with models := acc.models ++ [setKey fields "_folder" (JVal.str e.name)] }
  else acc

/-- The load_models function of src/loomaa/viewer.py: returns [] when the
compiled directory is missing; walks each subfolder, skipping folders without
model.json, warning and skipping on parse or encoding errors, and appending
each parsed model.json augmented with a _folder key; a listing failure is
reported as an error with the models collected so far (none). -/
def load_models (d : CompiledDir) : LoadResult :=
  if !d.present then ⟨[], [], []⟩
  else
    match d.listing with
    | Except.error err => ⟨[], [], ["Error loading models: " ++ err]⟩
    | Except.ok entries => entries.foldl loadStep ⟨[], [], []⟩

/-- A relationship endpoint pair resolves against the model: some table of the
model carries the referenced name and contains the referenced column. -/
def relResolves (m : SemanticModel) (r : Relationship) : Prop :=
  (∃ t ∈ m.tables, t.name = r.from_table ∧ r.from_column ∈ colNames t)
    ∧ (∃ t ∈ m.tables, t.name = r.to_table ∧ r.to_column ∈ colNames t)

/-- The empty output location. -/
def emptyFS : FS := fun _ => Option.none

/-- The "Sales" table of the end-to-end scenario: Cached mode, columns
SalesID, CustomerID, Revenue, and the measure Total Sales. -/
def salesTable : Table :=
  { name := "Sales"
    mode := TableMode.cached
    columns :=
      [ { name := "SalesID", dtype := DataType.integer }
      , { name := "CustomerID", dtype := DataType.integer }
      , { name := "Revenue", dtype := DataType.currency } ]
    measures :=
      [ { name := "Total Sales", expression := "SUM(Sales[Revenue])" } ] }

/-- The "Customer" table of the end-to-end scenario: Cached mode, one column
CustomerID. -/
def customerTable : Table :=
  { name := "Customer"
    mode := TableMode.cached
    columns := [ { name := "CustomerID", dtype := DataType.integer } ] }

/-- The relationship of the end-to-end scenario: Sales.CustomerID →
Customer.CustomerID, ManyToOne, Single. -/
def salesCustomerRel : Relationship :=
  { from_table := "Sales"
    from_column := "CustomerID"
    to_table := "Customer"
    to_column := "CustomerID"
    cardinality := Cardinality.manyToOne
    cross_filter_direction := CrossFilter.single }

/-- The end-to-end scenario model "Examples_Model". -/
def exampleModel : SemanticModel :=
  { name := "Examples_Model"
    tables := [salesTable, customerTable]
    relationships := [salesCustomerRel] }

/-- A model with two tables both named "Sales": the duplicate-rejection
scenario. -/
def dupSalesModel : SemanticModel :=
  { name := "Dup_Model"
    tables :=
      [ { name := "Sales", mode := TableMode.cached }
      , { name := "Sales", mode := TableMode.cached } ] }

/-- A model whose only relationship points at a "Customer" table that was
never added: the dangling-relationship scenario. -/
def danglingModel : SemanticModel :=
  { name := "Dangling_Model"
    tables := [salesTable]
    relationships := [salesCustomerRel] }

/-- A model with a DirectConnection table declaring a CalculatedColumn: the
mode-constraint scenario. -/
def directConnCalcModel : SemanticModel :=
  { name := "DirectConn_Model"
    tables :=
      [ { name := "Live"
          mode := TableMode.directConnection
          columns := [ { name := "Id", dtype := DataType.integer } ]
          calculated_columns := [ { name := "Key", expression := "[Id] + 1" } ] } ] }

/-- The models the viewer loop keeps: parsed model.json dictionaries of the
subfolders, each augmented with its _folder key. -/
def loadFilterModels (entries : List FolderEntry) : List (List (String × JVal)) :=
  entries.filterMap fun e =>
    if e.isDir then
      match e.content with
      | ReadResult.parsed fields => some (setKey fields "_folder" (JVal.str e.name))
      | _ => Option.none
    else Option.none

/-- The warnings the viewer loop surfaces: one per subfolder whose model.json
raises a parse or encoding error. -/
def loadFilterWarnings (entries : List FolderEntry) : List String :=
  entries.filterMap fun e =>
    if e.isDir then
      match e.content with
      | ReadResult.invalid err => some ("Could not load model from " ++ e.name ++ ": " ++ err)
      | _ => Option.none
    else Option.none

/-- A compiled directory holding one subfolder with no model.json inside. -/
def absentOnlyDir : CompiledDir :=
  { present := true
    listing := Except.ok [ { name := "empty_folder", isDir := true, content := ReadResult.absent } ] }

/-- The directory entries of the mixed viewer scenario: a parseable model, a
corrupt model, a folder without model.json, and a plain file. -/
def sampleEntries : List FolderEntry :=
  [ { name := "m1", isDir := true, content := ReadResult.parsed [("name", JVal.str "Examples_Model")] }
  , { name := "bad", isDir := true, content := ReadResult.invalid "Expecting value" }
  , { name := "empty", isDir := true, content := ReadResult.absent }
  , { name := "notes.txt", isDir := false, content := ReadResult.absent } ]

/-- The mixed viewer scenario directory. -/
def sampleDir : CompiledDir :=
  { present := true, listing := Except.ok sampleEntries }

theorem escape_eq_nil {l : List Char} (h : escapeChars l = []) : l = [] := by
  cases l with
  | nil => rfl
  | cons c rest =>
      exfalso
      by_cases hc : c = sq <;> simp [escapeChars, hc] at h

theorem unescape_escape (l : List Char) : unescapeChars (escapeChars l) = l := by
  induction l with
  | nil => rfl
  | cons c rest ih =>
      by_cases hc : c = sq
      · simp only [escapeChars, hc, if_pos rfl]
        simpa [unescapeChars] using ih
      · simp only [escapeChars, if_neg hc]
        cases h : escapeChars rest with
        | nil =>
            rw [escape_eq_nil h]
            rfl
        | cons d t =>
            simp only [unescapeChars]
            rw [if_neg (by simp [hc]), ← h, ih]

theorem legal_not_sq : isLegalTokenChar sq = false := by decide

theorem parse_sanitize (s : String) : parseName (sanitizeName s) = s := by
  by_cases h : isLegalToken s = true
  · rw [sanitizeName, if_pos h, parseName, parseNameChars]
    cases s with
    | mk data =>
        cases data with
        | nil => rfl
        | cons c rest =>
            have hc : isLegalTokenChar c = true := by
              simp only [isLegalToken, List.all_eq_true] at h
              exact h c (List.mem_cons_self c rest)
            have hcs : c ≠ sq := by
              intro heq
              rw [heq, legal_not_sq] at hc
              exact Bool.false_ne_true hc
            rw [if_neg]
            intro hcon
            exact hcs (Option.some.inj hcon.1)
  · rw [sanitizeName, if_neg h, parseName, parseNameChars]
    rw [if_pos]
    · have hdrop : (sq :: (escapeChars s.data ++ [sq])).dropLast = sq :: escapeChars s.data := by
        rw [List.dropLast_cons_of_ne_nil (by simp), List.dropLast_concat]
      rw [hdrop]
      simp only [List.tail_cons]
      rw [unescape_escape]
    · refine ⟨rfl, by simp, ?_⟩
      rw [List.getLast?_cons, List.getLast?_concat]
      simp

/-- C6: for every name accepted by the data model, the compiler's sanitized
token, parsed back by the inverse of the escaping rule, yields exactly the
original name. -/
theorem C6_roundtrip_naming (name : String) : parseName (sanitizeName name) = name :=
  parse_sanitize name

theorem firstDup_eq_none {l : List String} : firstDup l = Option.none ↔ l.Nodup := by
  induction l with
  | nil => simp [firstDup]
  | cons x xs ih =>
      simp only [firstDup]
      by_cases h : xs.contains x = true
      · rw [if_pos h]
        have hx : x ∈ xs := by simpa using h
        constructor
        · intro hc
          exact absurd hc (Option.some_ne_none x)
        · intro hn
          exact absurd hx (List.nodup_cons.mp hn).1
      · rw [if_neg h]
        have hx : x ∉ xs := by simpa using h
        rw [ih, List.nodup_cons]
        simp [hx]

theorem relResolves_of_relMissing_eq_none {m : SemanticModel} {r : Relationship}
    (h : relMissing m r = Option.none) : relResolves m r := by
  unfold relMissing at h
  split at h
  case _ hf => simp at h
  case _ t hf =>
      split at h
      case _ hc =>
          split at h
          case _ hf2 => simp at h
          case _ t2 hf2 =>
              split at h
              case _ hc2 =>
                  have hp := List.find?_some hf
                  have hp2 := List.find?_some hf2
                  exact ⟨⟨t, List.mem_of_find?_eq_some hf,
                      by simpa using hp, by simpa using hc⟩,
                    ⟨t2, List.mem_of_find?_eq_some hf2,
                      by simpa using hp2, by simpa using hc2⟩⟩
              case _ hc2 => simp at h
      case _ hc => simp at h

theorem compileToDir_error {m : SemanticModel} {e : CompileError}
    (h : compile m = Except.error e) (fs : FS) : compileToDir m fs = fs := by
  unfold compileToDir
  rw [h]

theorem firstModeError_eq_none {m : SemanticModel}
    (hmode : ∀ t ∈ m.tables, modeViolation t = false) : firstModeError m = Option.none := by
  unfold firstModeError
  rw [List.find?_eq_none.mpr fun t ht => by simp [hmode t ht]]
  rfl

/-- C2: whenever compile fails with any error, the output location is left
completely unchanged — no partial text artifact and no partial JSON artifact
is written. -/
theorem C2_all_or_nothing (m : SemanticModel) (e : CompileError) (fs : FS)
    (h : compile m = Except.error e) : compileToDir m fs = fs :=
  compileToDir_error h fs

/-- C2 witness: the duplicate-Sales model fails to compile and writing it to
the empty output location leaves the location empty. -/
theorem C2_all_or_nothing_witness :
    compile dupSalesModel = Except.error (CompileError.duplicateNameError "Sales")
      ∧ compileToDir dupSalesModel emptyFS = emptyFS :=
  ⟨rfl, C2_all_or_nothing dupSalesModel (CompileError.duplicateNameError "Sales") emptyFS rfl⟩

/-- C3: if every table passes the mode check and some relationship endpoint
fails to resolve against the model, compile raises a ReferenceError naming a
missing entity. -/
theorem C3_dangling_relationship (m : SemanticModel)
    (hmode : ∀ t ∈ m.tables, modeViolation t = false)
    (hrel : ∃ r ∈ m.relationships, ¬ relResolves m r) :
    ∃ s, compile m = Except.error (CompileError.referenceError s) := by
  have h1 := firstModeError_eq_none hmode
  obtain ⟨r, hr, hnres⟩ := hrel
  have h2 : relMissing m r ≠ Option.none := fun hn =>
    hnres (relResolves_of_relMissing_eq_none hn)
  cases hfs : m.relationships.findSome? (relMissing m) with
  | none => exact absurd (List.findSome?_eq_none_iff.mp hfs r hr) h2
  | some s =>
      refine ⟨s, ?_⟩
      simp [compile, validate, h1, firstRefError, hfs]

/-- C3 witness: the model whose only relationship points at the never-added
"Customer" table raises ReferenceError, and the error names "Customer". -/
theorem C3_dangling_relationship_witness :
    (∀ t ∈ danglingModel.tables, modeViolation t = false)
      ∧ (∃ r ∈ danglingModel.relationships, ¬ relResolves danglingModel r)
      ∧ (∃ s, compile danglingModel = Except.error (CompileError.referenceError s))
      ∧ compile danglingModel = Except.error (CompileError.referenceError "Customer") := by
  have hmode : ∀ t ∈ danglingModel.tables, modeViolation t = false := by decide
  have hrel : ∃ r ∈ danglingModel.relationships, ¬ relResolves danglingModel r := by
    refine ⟨salesCustomerRel, by decide, ?_⟩
    rintro ⟨-, t, ht, hname, -⟩
    have ht2 : t = salesTable := List.mem_singleton.mp ht
    rw [ht2] at hname
    exact absurd hname (by decide)
  exact ⟨hmode, hrel, C3_dangling_relationship danglingModel hmode hrel, rfl⟩

/-- C4: a model containing a DirectConnection-mode table with at least one
CalculatedColumn fails with IncompatibleModeError and writes no artifacts. -/
theorem C4_mode_constraint (m : SemanticModel)
    (h : ∃ t ∈ m.tables, t.mode = TableMode.directConnection ∧ t.calculated_columns ≠ []) :
    (∃ s, compile m = Except.error (CompileError.incompatibleModeError s))
      ∧ ∀ fs, compileToDir m fs = fs := by
  obtain ⟨t, ht, hmode, hcc⟩ := h
  have hviol : modeViolation t = true := by
    simp [modeViolation, hmode, hcc]
  cases hfind : m.tables.find? modeViolation with
  | none => exact absurd hviol (by simpa using List.find?_eq_none.mp hfind t ht)
  | some tv =>
      have hcomp : compile m = Except.error (CompileError.incompatibleModeError tv.name) := by
        simp [compile, validate, firstModeError, hfind]
      exact ⟨⟨tv.name, hcomp⟩, fun fs => compileToDir_error hcomp fs⟩

/-- C4 witness: the DirectConnection table declaring a calculated column makes
compile fail with IncompatibleModeError and leaves the output untouched. -/
theorem C4_mode_constraint_witness :
    (∃ t ∈ directConnCalcModel.tables,
        t.mode = TableMode.directConnection ∧ t.calculated_columns ≠ [])
      ∧ (∃ s, compile directConnCalcModel = Except.error (CompileError.incompatibleModeError s))
      ∧ compileToDir directConnCalcModel emptyFS = emptyFS := by
  have h : ∃ t ∈ directConnCalcModel.tables,
      t.mode = TableMode.directConnection ∧ t.calculated_columns ≠ [] := by decide
  have hc := C4_mode_constraint directConnCalcModel h
  exact ⟨h, hc.1, hc.2 emptyFS⟩

/-- C5: if mode and reference validation pass and two tables share a name, or
two measures in the combined flat namespace share a name, compile raises
DuplicateNameError. -/
theorem C5_duplicate_rejection (m : SemanticModel)
    (hmode : ∀ t ∈ m.tables, modeViolation t = false)
    (href : ∀ r ∈ m.relationships, relMissing m r = Option.none)
    (hdup : ¬ (m.tables.map Table.name).Nodup ∨ ¬ (allMeasureNames m).Nodup) :
    ∃ n, compile m = Except.error (CompileError.duplicateNameError n) := by
  have h1 := firstModeError_eq_none hmode
  have h2 : firstRefError m = Option.none := by
    unfold firstRefError
    rw [List.findSome?_eq_none_iff.mpr href]
    rfl
  cases hd : firstDup (m.tables.map Table.name) with
  | some n =>
      refine ⟨n, ?_⟩
      simp [compile, validate, h1, h2, dupError, hd]
  | none =>
      have htn : (m.tables.map Table.name).Nodup := firstDup_eq_none.mp hd
      cases hdup with
      | inl h => exact absurd htn h
      | inr h =>
          cases hm : firstDup (allMeasureNames m) with
          | none => exact absurd (firstDup_eq_none.mp hm) h
          | some n =>
              refine ⟨n, ?_⟩
              simp [compile, validate, h1, h2, dupError, hd, hm]

/-- C5 witness: the model with two tables both named "Sales" raises
DuplicateNameError. -/
theorem C5_duplicate_rejection_witness :
    (∀ t ∈ dupSalesModel.tables, modeViolation t = false)
      ∧ (∀ r ∈ dupSalesModel.relationships, relMissing dupSalesModel r = Option.none)
      ∧ ¬ (dupSalesModel.tables.map Table.name).Nodup
      ∧ (∃ n, compile dupSalesModel = Except.error (CompileError.duplicateNameError n)) :=
  ⟨by decide, by decide, by decide,
    C5_duplicate_rejection dupSalesModel (by decide) (by decide) (Or.inl (by decide))⟩

theorem pairs_agree (m : SemanticModel) :
    textTableColumnPairs (emitText m) = jsonTableColumnPairs (emitJson m) := by
  simp [textTableColumnPairs, emitText, jsonTableColumnPairs, emitJson,
    List.flatMap_map, emitTable, List.map_map, Function.comp_def, parse_sanitize]

theorem measures_agree (m : SemanticModel) :
    textMeasureFacts (emitText m) = jsonMeasureFacts (emitJson m) := by
  simp [textMeasureFacts, emitText, jsonMeasureFacts, emitJson,
    List.flatMap_map, emitTable, emitMeasureBlock, List.map_map, Function.comp_def,
    parse_sanitize]

theorem endpoints_agree (m : SemanticModel) :
    textRelEndpoints (emitText m) = jsonRelEndpoints (emitJson m) := by
  simp [textRelEndpoints, emitText, jsonRelEndpoints, emitJson,
    List.map_map, Function.comp_def, parse_sanitize]

/-- C1: for every model accepted by compile, the text artifact and the JSON
artifact agree on every structural fact — the (table, column) pairs, the
measure names with their expressions, and the relationship endpoints
recoverable from one document exactly equal those recoverable from the
other. -/
theorem C1_artifact_agreement (m : SemanticModel) (t : TextArtifact) (j : JsonDoc)
    (h : compile m = Except.ok (t, j)) :
    textTableColumnPairs t = jsonTableColumnPairs j
      ∧ textMeasureFacts t = jsonMeasureFacts j
      ∧ textRelEndpoints t = jsonRelEndpoints j := by
  unfold compile at h
  split at h
  · exact absurd h (by simp)
  · injection h with h'
    injection h' with h1 h2
    subst h1
    subst h2
    exact ⟨pairs_agree m, measures_agree m, endpoints_agree m⟩

/-- C1 witness: the end-to-end scenario model compiles and its two artifacts
agree on all three classes of structural fact. -/
theorem C1_artifact_agreement_witness :
    compile exampleModel = Except.ok (emitText exampleModel, emitJson exampleModel)
      ∧ textTableColumnPairs (emitText exampleModel)
          = jsonTableColumnPairs (emitJson exampleModel)
      ∧ textMeasureFacts (emitText exampleModel) = jsonMeasureFacts (emitJson exampleModel)
      ∧ textRelEndpoints (emitText exampleModel) = jsonRelEndpoints (emitJson exampleModel) := by
  have h : compile exampleModel
      = Except.ok (emitText exampleModel, emitJson exampleModel) := rfl
  exact ⟨h, C1_artifact_agreement exampleModel (emitText exampleModel) (emitJson exampleModel) h⟩

/-- C7: compile is deterministic and persisting is idempotent — compiling the
same model to the same output location a second time leaves the location with
byte-identical artifacts. -/
theorem C7_deterministic_idempotent (m : SemanticModel) (fs : FS) :
    compileToDir m (compileToDir m fs) = compileToDir m fs := by
  cases hc : compile m with
  | error e => simp [compileToDir, hc]
  | ok pair =>
      obtain ⟨t, j⟩ := pair
      funext q
      simp only [compileToDir, hc, setFile]
      by_cases h1 : q = jsonPath
      · simp [h1]
      · by_cases h2 : q = textPath <;> simp [h1, h2]

/-- C8: the end-to-end scenario — "Examples_Model" with the Sales and
Customer tables and one ManyToOne relationship compiles; the text artifact
has a Sales table block containing a Total Sales measure block; the JSON
artifact has two tables and one relationship whose cardinality is the
canonical ManyToOne token. -/
theorem C8_end_to_end :
    compile exampleModel = Except.ok (emitText exampleModel, emitJson exampleModel)
      ∧ ((emitText exampleModel).tables.any fun tb =>
          tb.nameTok == sanitizeName "Sales"
            && tb.measures.any fun b => b.nameTok == sanitizeName "Total Sales") = true
      ∧ (emitJson exampleModel).tables.length = 2
      ∧ (emitJson exampleModel).relationships.length = 1
      ∧ (emitJson exampleModel).relationships.map JRelationship.cardinality
          = [cardinalityToken Cardinality.manyToOne] := by
  refine ⟨rfl, ?_, rfl, rfl, rfl⟩
  decide

/-- C9: whenever the underlying compile_model call raises, the compile CLI
command echoes the error message, exits with status 1, and has invoked
compile_model exactly once — no retry and no silent recovery. -/
theorem C9_cli_error_propagation (msg : String) :
    ("❌ Compilation failed: " ++ msg) ∈ (cliCompile true (Except.error msg)).output
      ∧ (cliCompile true (Except.error msg)).exitCode = 1
      ∧ (cliCompile true (Except.error msg)).compileCalls = 1 := by
  refine ⟨?_, rfl, rfl⟩
  simp [cliCompile]

theorem loadStep_fold (entries : List FolderEntry) (acc : LoadResult) :
    entries.foldl loadStep acc
      = ⟨acc.models ++ loadFilterModels entries,
          acc.warnings ++ loadFilterWarnings entries, acc.errors⟩ := by
  induction entries generalizing acc with
  | nil => simp [loadFilterModels, loadFilterWarnings]
  | cons e rest ih =>
      simp only [List.foldl_cons]
      rw [ih]
      cases hdi : e.isDir with
      | false =>
          simp [loadStep, hdi, loadFilterModels, loadFilterWarnings]
      | true =>
          cases hc : e.content <;>
            simp [loadStep, hdi, hc, loadFilterModels, loadFilterWarnings]

/-- C10 counterexample: a compiled directory holding one subfolder without a
model.json is skipped with no warning at all, contradicting the claim that
such a folder is reported as a warning. -/
theorem C10_absent_no_warning :
    absentOnlyDir.listing
        = Except.ok [ { name := "empty_folder", isDir := true, content := ReadResult.absent } ]
      ∧ (load_models absentOnlyDir).warnings = []
      ∧ (load_models absentOnlyDir).models = [] :=
  ⟨rfl, rfl, rfl⟩

/-- C10 (amended): load_models always returns; a missing compiled directory
yields the empty result; a subfolder with an absent model.json is skipped
silently, one whose model.json is unparseable or wrongly encoded is skipped
with exactly one warning, and each returned model is its parsed model.json
augmented with the _folder key. -/
theorem C10_load_models_amended (d : CompiledDir) :
    (d.present = false → load_models d = ⟨[], [], []⟩)
      ∧ ∀ entries, d.present = true → d.listing = Except.ok entries →
          (load_models d).models = loadFilterModels entries
            ∧ (load_models d).warnings = loadFilterWarnings entries
            ∧ (load_models d).errors = [] := by
  constructor
  · intro hp
    simp [load_models, hp]
  · intro entries hp hl
    simp [load_models, hp, hl, loadStep_fold]

/-- C10 witness: on the mixed directory the viewer returns exactly the parsed
model augmented with its folder, one warning for the corrupt folder, and no
errors. -/
theorem C10_load_models_amended_witness :
    (load_models sampleDir).models
        = [[("name", JVal.str "Examples_Model"), ("_folder", JVal.str "m1")]]
      ∧ (load_models sampleDir).warnings = ["Could not load model from bad: Expecting value"]
      ∧ (load_models sampleDir).errors = [] := by
  have h := (C10_load_models_amended sampleDir).2 sampleEntries rfl rfl
  exact ⟨h.1.trans rfl, h.2.1.trans rfl, h.2.2⟩

end Loomaa
